import Mathlib

/-!
Shallow embedding of the IBC port/capability validity predicate
(`shared/src/ledger/ibc/port.rs`).

Storage keys are ordered lists of path segments. The surrounding ledger
context (snapshot reads, the generic state-change classifier, the typed
counter reads) lives outside this module; it is embedded as an abstract
`Ctx` record of read-only interfaces, exactly the surface the source
consumes. The functions of `port.rs` are translated one-to-one below.
-/

namespace AnomaPort

/-- Decidable equality for `Except` results, so that concrete runs of the
predicate can be checked by evaluation. -/
instance (ε α : Type) [DecidableEq ε] [DecidableEq α] :
    DecidableEq (Except ε α) := fun x y =>
  match x, y with
  | .ok a, .ok b =>
      if h : a = b then .isTrue (by rw [h])
      else .isFalse (fun hc => h (Except.ok.inj hc))
  | .error a, .error b =>
      if h : a = b then .isTrue (by rw [h])
      else .isFalse (fun hc => h (Except.error.inj hc))
  | .ok _, .error _ => .isFalse (fun hc => Except.noConfusion hc)
  | .error _, .ok _ => .isFalse (fun hc => Except.noConfusion hc)

/-- A storage key: an ordered sequence of path segments (`types::storage::Key`);
`raw()` of a string segment is the segment itself. -/
structure Key where
  segments : List String
deriving DecidableEq

/-- Display form of a key (segments joined by slashes), used in error messages. -/
def keyStr (k : Key) : String := "/".intercalate k.segments

/-- Modelled from the spec: the `StateChange` classification type from the
enclosing `ibc` module (not under `src/`): how a key differs between the
pre- and post-transaction snapshots. -/
inductive StateChange
  | Created
  | Modified
  | Deleted
  | NotExists
deriving DecidableEq

/-- A stored value together with its decodable shape: `decode::<String>`
succeeds exactly on string-encoded values and `decode::<u64>` exactly on
integer-encoded values. -/
inductive Value
  | str (s : String)
  | num (n : Nat)
deriving DecidableEq

/-- A port identifier (`ibc::ics24_host::identifier::PortId`): a validated
string; equality is string equality. -/
structure PortId where
  id : String
deriving DecidableEq

/-- A capability (`ibc::ics05_port::capabilities::Capability`): an opaque
handle around an integer index; two capabilities are equal iff their
indices are equal. -/
structure Capability where
  index : Nat
deriving DecidableEq

/-- The error enum of `port.rs`. -/
inductive Error
  | KeyError (msg : String)
  | StateChangeError (msg : String)
  | PortError (msg : String)
  | CapabilityError (msg : String)
deriving DecidableEq

/-- `storage::types::decode::<String>`: succeeds exactly on string-encoded
values. -/
def decodeString : Value → Except String String
  | .str s => .ok s
  | _ => .error "decoding a string failed"

/-- `storage::types::decode::<u64>`: succeeds exactly on integer-encoded
values. -/
def decodeU64 : Value → Except String Nat
  | .num n => .ok n
  | _ => .error "decoding an integer failed"

/-- Characters the `ibc` crate accepts in identifiers. -/
def validIdChar (c : Char) : Bool :=
  c.isAlphanum || c == '.' || c == '_' || c == '+' || c == '-' || c == '#' ||
    c == '[' || c == ']' || c == '<' || c == '>'

/-- `PortId::from_str` from the `ibc` crate: validates the identifier
(length bounds and allowed characters) and wraps the string. -/
def PortId.fromStr (s : String) : Except String PortId :=
  if s.length < 2 then .error "identifier too short"
  else if 64 < s.length then .error "identifier too long"
  else if s.data.all validIdChar then .ok ⟨s⟩
  else .error "identifier has an invalid character"

/-- Reads a run of decimal digits, returning `none` at the first
non-digit character. -/
def parseDigits : List Char → Nat → Option Nat
  | [], acc => some acc
  | c :: cs, acc =>
      if c.isDigit then parseDigits cs (acc * 10 + (c.toNat - 48))
      else none

/-- `str::parse::<u64>` from the Rust standard library: a non-empty string
of decimal digits denoting a value below 2^64. -/
def parseU64 (s : String) : Except String Nat :=
  match s.data with
  | [] => .error "cannot parse integer from empty string"
  | cs =>
      match parseDigits cs 0 with
      | some n =>
          if n < 18446744073709551616 then .ok n
          else .error "number too large to fit in target type"
      | none => .error "invalid digit found in string"

/-- Splits a list of characters at every slash, accumulating the current
segment in reverse. -/
def splitSegsAux : List Char → List Char → List String
  | [], acc => [String.mk acc.reverse]
  | c :: cs, acc =>
      if c = '/' then String.mk acc.reverse :: splitSegsAux cs []
      else splitSegsAux cs (c :: acc)

/-- Splits a path string into its slash-separated segments. -/
def splitSlash (s : String) : List String := splitSegsAux s.data []

/-- Modelled from the spec: `Key::ibc_key(path)` (in `types/storage.rs`,
not under `src/`) prefixes the protocol-namespaced internal address and
splits the path into segments. -/
def ibcKey (path : String) : Key := ⟨"#IBC" :: splitSlash path⟩

/-- Modelled from the spec: `capability_counter_path()` is a fixed
well-known path (`Key::ibc_capability_index()`, not under `src/`). -/
def ibcCapabilityIndexKey : Key := ibcKey "capabilities/index"

/-- Modelled from the spec: `is_capability_counter_key(key)` is the
structural test distinguishing the counter path from per-capability
entries (`Key::is_ibc_capability_index`, not under `src/`). -/
def Key.isIbcCapabilityIndex (k : Key) : Bool := k == ibcCapabilityIndexKey

/-- `ibc::ics24_host::Path::Ports(port_id).to_string()`. -/
def portsPath (port_id : PortId) : String := "ports/" ++ port_id.id

/-- `capabilities/{index}`, the capability-to-port binding path built in
`get_port_by_capability`. -/
def capabilitiesPath (cap : Capability) : String :=
  "capabilities/" ++ toString cap.index

/-- The read-only ledger interfaces the validity predicate consumes
(spec section 6): the generic state-change classifier, the typed counter
reads against the two snapshots, and point reads against the
post-transaction snapshot. -/
structure Ctx where
  getStateChange : Key → Except String StateChange
  readCounterPre : Key → Except String Nat
  readCounter : Key → Nat
  readPost : Key → Except String (Option Value)

/-- `get_port_id` of `port.rs`: the port ID is parsed from the segment at
index 3 of the key. -/
def get_port_id (key : Key) : Except Error PortId :=
  match key.segments.get? 3 with
  | some id => (PortId.fromStr id).mapError Error.KeyError
  | none =>
      .error (.KeyError ("The key does not have a port ID: Key " ++ keyStr key))

/-- `get_port_state_change` of `port.rs`: classify the canonical ports path
of the given port ID. -/
def get_port_state_change (ctx : Ctx) (port_id : PortId) :
    Except Error StateChange :=
  (ctx.getStateChange (ibcKey (portsPath port_id))).mapError
    Error.StateChangeError

/-- `get_port_by_capability` of `port.rs`: read the capability-to-port
binding from the post-transaction snapshot and decode it as a port ID. -/
def get_port_by_capability (ctx : Ctx) (cap : Capability) :
    Except Error PortId :=
  match ctx.readPost (ibcKey (capabilitiesPath cap)) with
  | .ok (some value) =>
      match decodeString value with
      | .ok id => (PortId.fromStr id).mapError Error.PortError
      | .error e => .error (.PortError ("Decoding the port ID failed: " ++ e))
  | .ok none => .error (.PortError "The capability is not mapped to any port")
  | .error e => .error (.PortError ("Reading the port failed " ++ e))

/-- `lookup_module_by_port` of `port.rs` (the `PortReader` instance): read
the port-to-capability binding from the post-transaction snapshot, decode
the stored integer as a capability index; `none` on any failure. -/
def lookup_module_by_port (ctx : Ctx) (port_id : PortId) : Option Capability :=
  match ctx.readPost (ibcKey (portsPath port_id)) with
  | .ok (some value) =>
      match decodeU64 value with
      | .ok index => some ⟨index⟩
      | .error _ => none
  | _ => none

/-- `authenticate` of `port.rs` (the `PortReader` instance): true iff
`get_port_by_capability` succeeds and yields exactly the given port ID. -/
def authenticate (ctx : Ctx) (cap : Capability) (port_id : PortId) : Bool :=
  match get_port_by_capability ctx cap with
  | .ok p => p == port_id
  | .error _ => false

/-- Modelled from the spec: `authenticated_capability` (in the enclosing
`ibc` module, not under `src/`) queries the Capability Lookup Interface
for a capability bound to the port ID and confirms it resolves
successfully. -/
def authenticated_capability (ctx : Ctx) (port_id : PortId) :
    Except String Capability :=
  match lookup_module_by_port ctx port_id with
  | some cap =>
      if authenticate ctx cap port_id then .ok cap
      else .error "the capability is not owned by the port"
  | none => .error "no capability is bound to the port"

/-- `validate_port` of `port.rs`. -/
def validate_port (ctx : Ctx) (key : Key) : Except Error Bool :=
  match get_port_id key with
  | .error e => .error e
  | .ok port_id =>
      match get_port_state_change ctx port_id with
      | .error e => .error e
      | .ok .Created =>
          match authenticated_capability ctx port_id with
          | .ok _ => .ok true
          | .error e =>
              .error (.PortError
                ("The port is not authenticated: ID " ++ port_id.id ++ ", " ++ e))
      | .ok _ =>
          .error (.PortError
            ("The state change of the port is invalid: Port " ++ port_id.id))

/-- `capability_index_pre` of `port.rs`: the counter value in the
pre-transaction snapshot. -/
def capability_index_pre (ctx : Ctx) : Except Error Nat :=
  (ctx.readCounterPre ibcCapabilityIndexKey).mapError Error.CapabilityError

/-- `capability_index` of `port.rs`: the counter value in the
post-transaction snapshot; this read cannot fail. -/
def capability_index (ctx : Ctx) : Except Error Nat :=
  .ok (ctx.readCounter ibcCapabilityIndexKey)

/-- `get_capability` of `port.rs`: the capability index is parsed from the
segment at index 2 of the key. -/
def get_capability (key : Key) : Except Error Capability :=
  match key.segments.get? 2 with
  | some i =>
      match parseU64 i with
      | .ok index => .ok ⟨index⟩
      | .error e =>
          .error (.CapabilityError
            ("The key has a non-number index: Key " ++ keyStr key ++ ", " ++ e))
  | none =>
      .error (.CapabilityError
        ("The key does not have a capability index: Key " ++ keyStr key))

/-- `validate_capability` of `port.rs`. -/
def validate_capability (ctx : Ctx) (key : Key) : Except Error Bool :=
  if key.isIbcCapabilityIndex then
    match capability_index_pre ctx with
    | .error e => .error e
    | .ok pre =>
        match capability_index ctx with
        | .error e => .error e
        | .ok post => .ok (decide (pre < post))
  else
    match (ctx.getStateChange key).mapError Error.StateChangeError with
    | .error e => .error e
    | .ok .Created =>
        match get_capability key with
        | .error e => .error e
        | .ok cap =>
            match get_port_by_capability ctx cap with
            | .error e => .error e
            | .ok port_id =>
                match lookup_module_by_port ctx port_id with
                | some c => .ok (c == cap)
                | none =>
                    .error (.CapabilityError
                      ("The capability is not mapped: Index " ++
                        toString cap.index ++ ", Port " ++ port_id.id))
    | .ok _ =>
        .error (.StateChangeError
          ("The state change of the capability is invalid: key " ++ keyStr key))

/-!
Concrete ledger contexts used to run the predicate on explicit inputs:
each fixes the four read-only interfaces to small lookup tables.
-/

/-- A transaction in which a port is created with a full round trip:
`ports/transfer` holds capability index 3 and `capabilities/3` holds
`transfer`. -/
def okPortCtx : Ctx where
  getStateChange := fun k =>
    if k = ibcKey "ports/transfer" then .ok .Created else .error "not classified"
  readCounterPre := fun _ => .ok 0
  readCounter := fun _ => 1
  readPost := fun k =>
    if k = ibcKey "ports/transfer" then .ok (some (.num 3))
    else if k = ibcKey "capabilities/3" then .ok (some (.str "transfer"))
    else .ok none

/-- A transaction in which the capability counter does not advance:
both snapshots hold 1. -/
def stalledCounterCtx : Ctx where
  getStateChange := fun _ => .error "not classified"
  readCounterPre := fun _ => .ok 1
  readCounter := fun _ => 1
  readPost := fun _ => .ok none

/-- A transaction in which the capability counter advances from 0 to 1. -/
def advancingCounterCtx : Ctx where
  getStateChange := fun _ => .error "not classified"
  readCounterPre := fun _ => .ok 0
  readCounter := fun _ => 1
  readPost := fun _ => .ok none

/-- A transaction creating capability 5 mapped to `transfer`, while the
registry resolves `transfer` to capability 7. -/
def mismatchedRegistryCtx : Ctx where
  getStateChange := fun k =>
    if k = ibcKey "capabilities/5" then .ok .Created else .error "not classified"
  readCounterPre := fun _ => .ok 5
  readCounter := fun _ => 6
  readPost := fun k =>
    if k = ibcKey "capabilities/5" then .ok (some (.str "transfer"))
    else if k = ibcKey "ports/transfer" then .ok (some (.num 7))
    else .ok none

/-- A transaction creating capability 5 mapped to `transfer`, with the
registry agreeing that `transfer` resolves to capability 5. -/
def wellMappedCtx : Ctx where
  getStateChange := fun k =>
    if k = ibcKey "capabilities/5" then .ok .Created else .error "not classified"
  readCounterPre := fun _ => .ok 5
  readCounter := fun _ => 6
  readPost := fun k =>
    if k = ibcKey "capabilities/5" then .ok (some (.str "transfer"))
    else if k = ibcKey "ports/transfer" then .ok (some (.num 5))
    else .ok none

/-- A transaction in which every key classifies as `Deleted`. -/
def deletedCapCtx : Ctx where
  getStateChange := fun _ => .ok .Deleted
  readCounterPre := fun _ => .ok 0
  readCounter := fun _ => 0
  readPost := fun _ => .ok none

/-- A post snapshot whose only entry binds capability 3 to port
`transfer`. -/
def boundCapCtx : Ctx where
  getStateChange := fun _ => .error "not classified"
  readCounterPre := fun _ => .ok 0
  readCounter := fun _ => 0
  readPost := fun k =>
    if k = ibcKey "capabilities/3" then .ok (some (.str "transfer")) else .ok none

/-- A post snapshot with capability 3 issued for port `transfer`. -/
def issuedCapCtx : Ctx where
  getStateChange := fun _ => .error "not classified"
  readCounterPre := fun _ => .ok 0
  readCounter := fun _ => 0
  readPost := fun k =>
    if k = ibcKey "capabilities/3" then .ok (some (.str "transfer")) else .ok none

/-- A post snapshot whose only entry binds port `transfer` to capability
index 3. -/
def portBoundCtx : Ctx where
  getStateChange := fun _ => .error "not classified"
  readCounterPre := fun _ => .ok 0
  readCounter := fun _ => 0
  readPost := fun k =>
    if k = ibcKey "ports/transfer" then .ok (some (.num 3)) else .ok none

/-- A transaction in which the capability counter stays at 2. -/
def stalledCounterCtx2 : Ctx where
  getStateChange := fun _ => .error "not classified"
  readCounterPre := fun _ => .ok 2
  readCounter := fun _ => 2
  readPost := fun _ => .ok none

/-!
Theorems settling the claims.
-/

/-- Claim C1: for every key, `validate_port` returns true if and only if
the classification of the canonical ports path of the port ID extracted
from the key is `Created` and an authenticating capability for that port
ID resolves successfully; in every other case it fails with an error and
never returns `Ok false`. -/
theorem validate_port_accepts_iff (ctx : Ctx) (key : Key) :
    (validate_port ctx key = .ok true ↔
      ∃ port_id, get_port_id key = .ok port_id ∧
        get_port_state_change ctx port_id = .ok .Created ∧
        ∃ cap, authenticated_capability ctx port_id = .ok cap) ∧
    validate_port ctx key ≠ .ok false := by
  cases h1 : get_port_id key with
  | error e => simp [validate_port, h1]
  | ok pid =>
      cases h2 : get_port_state_change ctx pid with
      | error e => simp [validate_port, h1, h2]
      | ok sc =>
          cases sc with
          | Created =>
              cases h3 : authenticated_capability ctx pid with
              | ok c => simp [validate_port, h1, h2, h3]
              | error e => simp [validate_port, h1, h2, h3]
          | Modified => simp [validate_port, h1, h2]
          | Deleted => simp [validate_port, h1, h2]
          | NotExists => simp [validate_port, h1, h2]

/-- Claim C1 witness: on the round-trip transaction, `validate_port`
accepts the key whose fourth segment is `transfer`. -/
theorem validate_port_accepts_iff_witness :
    validate_port okPortCtx ⟨["#IBC", "channelEnds", "ports", "transfer"]⟩ =
      .ok true :=
  (validate_port_accepts_iff okPortCtx
      ⟨["#IBC", "channelEnds", "ports", "transfer"]⟩).1.mpr
    ⟨⟨"transfer"⟩, by decide, by decide, ⟨3⟩, by decide⟩

/-- Claim C2 counterexample: with the counter at 1 in both snapshots,
`validate_capability` on the counter key does not fail with an error as
the claim states; it returns `Ok false`. -/
theorem validate_capability_counter_stall_ok_false :
    validate_capability stalledCounterCtx ibcCapabilityIndexKey = .ok false := by
  decide

/-- Claim C2 amended: for every counter key, `validate_capability`
accepts iff the pre-transaction counter is strictly below the
post-transaction counter; when it is not, it returns `Ok false` without
an error, and an error arises only when reading the pre-transaction
counter fails. -/
theorem validate_capability_counter_spec (ctx : Ctx) (key : Key)
    (h : key.isIbcCapabilityIndex = true) :
    (∀ pre, ctx.readCounterPre ibcCapabilityIndexKey = .ok pre →
      validate_capability ctx key =
        .ok (decide (pre < ctx.readCounter ibcCapabilityIndexKey))) ∧
    (∀ e, ctx.readCounterPre ibcCapabilityIndexKey = .error e →
      validate_capability ctx key = .error (.CapabilityError e)) := by
  constructor
  · intro pre hpre
    simp [validate_capability, h, capability_index_pre, capability_index, hpre,
      Except.mapError]
  · intro e he
    simp [validate_capability, h, capability_index_pre, capability_index, he,
      Except.mapError]

/-- Claim C2 witness: on a transaction advancing the counter from 0 to 1,
the counter key is accepted. -/
theorem validate_capability_counter_spec_witness :
    validate_capability advancingCounterCtx ibcCapabilityIndexKey = .ok true :=
  (validate_capability_counter_spec advancingCounterCtx ibcCapabilityIndexKey
    (by decide)).1 0 rfl

/-- Claim C3 counterexample: capability 5 is created and mapped to port
`transfer`, whose registry capability is 7; `validate_capability` does
not reject with an error as the claim states; it returns `Ok false`. -/
theorem validate_capability_mismatch_ok_false :
    validate_capability mismatchedRegistryCtx (ibcKey "capabilities/5") =
      .ok false := by
  decide

/-- Claim C3 amended: for every per-capability key classified `Created`
whose capability index parses and whose capability-to-port binding
resolves, `validate_capability` returns `Ok` of the equality between the
registry capability and the index (so `Ok false`, with no error, on a
mismatch), and rejects with the capability-not-mapped error naming index
and port exactly when the registry has no entry. -/
theorem validate_capability_created_spec (ctx : Ctx) (key : Key)
    (cap : Capability) (port_id : PortId)
    (h0 : key.isIbcCapabilityIndex = false)
    (h1 : ctx.getStateChange key = .ok .Created)
    (h2 : get_capability key = .ok cap)
    (h3 : get_port_by_capability ctx cap = .ok port_id) :
    (∀ c, lookup_module_by_port ctx port_id = some c →
      validate_capability ctx key = .ok (c == cap)) ∧
    (lookup_module_by_port ctx port_id = none →
      validate_capability ctx key =
        .error (.CapabilityError
          ("The capability is not mapped: Index " ++ toString cap.index ++
            ", Port " ++ port_id.id))) := by
  constructor
  · intro c hc
    simp [validate_capability, h0, h1, h2, h3, hc, Except.mapError]
  · intro hn
    simp [validate_capability, h0, h1, h2, h3, hn, Except.mapError]

/-- Claim C3 witness: capability 5 is created for port `transfer` and the
registry agrees, so the per-capability key is accepted. -/
theorem validate_capability_created_spec_witness :
    validate_capability wellMappedCtx (ibcKey "capabilities/5") = .ok true :=
  (validate_capability_created_spec wellMappedCtx (ibcKey "capabilities/5")
    ⟨5⟩ ⟨"transfer"⟩ (by decide) (by decide) (by decide) (by decide)).1
    ⟨5⟩ (by decide)

/-- Claim C4: for every per-capability key whose classification is
anything other than `Created`, `validate_capability` fails with the
state-change error and never returns true. -/
theorem validate_capability_non_created (ctx : Ctx) (key : Key)
    (sc : StateChange)
    (h0 : key.isIbcCapabilityIndex = false)
    (h1 : ctx.getStateChange key = .ok sc)
    (h2 : sc ≠ .Created) :
    validate_capability ctx key =
      .error (.StateChangeError
        ("The state change of the capability is invalid: key " ++ keyStr key)) := by
  cases sc with
  | Created => exact absurd rfl h2
  | Modified => simp [validate_capability, h0, h1, Except.mapError]
  | Deleted => simp [validate_capability, h0, h1, Except.mapError]
  | NotExists => simp [validate_capability, h0, h1, Except.mapError]

/-- Claim C4 witness: a per-capability key classified `Deleted` is
rejected with the state-change error. -/
theorem validate_capability_non_created_witness :
    validate_capability deletedCapCtx (ibcKey "capabilities/5") =
      .error (.StateChangeError
        ("The state change of the capability is invalid: key " ++
          keyStr (ibcKey "capabilities/5"))) :=
  validate_capability_non_created deletedCapCtx (ibcKey "capabilities/5")
    .Deleted (by decide) rfl (by decide)

/-- Claim C5: `authenticate` returns true exactly when
`get_port_by_capability` succeeds and yields exactly the given port ID;
being a boolean function, it returns false (never an error) on any
lookup failure or mismatch. -/
theorem authenticate_iff (ctx : Ctx) (cap : Capability) (port_id : PortId) :
    authenticate ctx cap port_id = true ↔
      get_port_by_capability ctx cap = .ok port_id := by
  unfold authenticate
  cases h : get_port_by_capability ctx cap with
  | ok p => simp [beq_iff_eq]
  | error e => simp

/-- Claim C5 witness: capability 3 bound to `transfer` authenticates at
`transfer`. -/
theorem authenticate_iff_witness :
    authenticate boundCapCtx ⟨3⟩ ⟨"transfer"⟩ = true :=
  (authenticate_iff boundCapCtx ⟨3⟩ ⟨"transfer"⟩).mpr (by decide)

/-- Claim C6: over a fixed post snapshot, a capability whose
capability-to-port binding decodes to port `p` authenticates at `p` and
at no other port. -/
theorem authenticate_round_trip (ctx : Ctx) (cap : Capability) (v : Value)
    (s : String) (p : PortId)
    (h1 : ctx.readPost (ibcKey (capabilitiesPath cap)) = .ok (some v))
    (h2 : decodeString v = .ok s)
    (h3 : PortId.fromStr s = .ok p) :
    authenticate ctx cap p = true ∧
      ∀ p2, p2 ≠ p → authenticate ctx cap p2 = false := by
  have hg : get_port_by_capability ctx cap = .ok p := by
    simp [get_port_by_capability, h1, h2, h3, Except.mapError]
  constructor
  · simp [authenticate, hg]
  · intro p2 hne
    simp only [authenticate, hg]
    rw [beq_eq_false_iff_ne]
    exact fun hc => hne hc.symm

/-- Claim C6 witness: capability 3 issued for `transfer` authenticates at
`transfer` and not at `erehwon`. -/
theorem authenticate_round_trip_witness :
    authenticate issuedCapCtx ⟨3⟩ ⟨"transfer"⟩ = true ∧
      authenticate issuedCapCtx ⟨3⟩ ⟨"erehwon"⟩ = false :=
  ⟨(authenticate_round_trip issuedCapCtx ⟨3⟩ (.str "transfer") "transfer"
      ⟨"transfer"⟩ (by decide) rfl (by decide)).1,
   (authenticate_round_trip issuedCapCtx ⟨3⟩ (.str "transfer") "transfer"
      ⟨"transfer"⟩ (by decide) rfl (by decide)).2 ⟨"erehwon"⟩ (by decide)⟩

/-- Claim C7: `lookup_module_by_port` yields a capability exactly when
the post-snapshot read at the ports path succeeds with an
integer-decodable value, is `none` in every other case, and depends on
the post-transaction snapshot only. -/
theorem lookup_module_by_port_spec (ctx : Ctx) (port_id : PortId) :
    (∀ c, lookup_module_by_port ctx port_id = some c ↔
      ∃ v, ctx.readPost (ibcKey (portsPath port_id)) = .ok (some v) ∧
        decodeU64 v = .ok c.index) ∧
    (∀ ctx2 : Ctx, ctx2.readPost = ctx.readPost →
      lookup_module_by_port ctx2 port_id = lookup_module_by_port ctx port_id) := by
  constructor
  · intro c
    obtain ⟨ci⟩ := c
    unfold lookup_module_by_port
    cases h : ctx.readPost (ibcKey (portsPath port_id)) with
    | ok ov =>
        cases ov with
        | none => simp [h]
        | some v =>
            cases hd : decodeU64 v with
            | ok n => simp [h, hd]
            | error e => simp [h, hd]
    | error e => simp [h]
  · intro ctx2 hpost
    unfold lookup_module_by_port
    rw [hpost]

/-- Claim C7 witness: with `ports/transfer` holding index 3, the lookup
yields capability 3. -/
theorem lookup_module_by_port_spec_witness :
    lookup_module_by_port portBoundCtx ⟨"transfer"⟩ = some ⟨3⟩ :=
  ((lookup_module_by_port_spec portBoundCtx ⟨"transfer"⟩).1 ⟨3⟩).mpr
    ⟨.num 3, by decide, rfl⟩

/-- Claim C8: `get_port_id` parses exactly the segment at index 3 of the
key as a port identifier, fails with a key error when the key has fewer
than four segments, and its result depends on no other segment. -/
theorem get_port_id_spec (key : Key) :
    (∀ seg, key.segments[3]? = some seg →
      get_port_id key = (PortId.fromStr seg).mapError Error.KeyError) ∧
    (key.segments.length < 4 →
      get_port_id key =
        .error (.KeyError ("The key does not have a port ID: Key " ++ keyStr key))) ∧
    (∀ key2 seg, key.segments[3]? = some seg → key2.segments[3]? = some seg →
      get_port_id key = get_port_id key2) := by
  refine ⟨?_, ?_, ?_⟩
  · intro seg h
    simp [get_port_id, h]
  · intro hlen
    have h : key.segments[3]? = none := List.getElem?_eq_none (by omega)
    simp [get_port_id, h]
  · intro key2 seg h1 h2
    simp [get_port_id, h1, h2]

/-- Claim C8 witness: the fourth segment `transfer` is extracted, and a
two-segment key is rejected with the key error. -/
theorem get_port_id_spec_witness :
    get_port_id ⟨["#IBC", "channelEnds", "ports", "transfer"]⟩ = .ok ⟨"transfer"⟩ ∧
    get_port_id ⟨["#IBC", "ports"]⟩ =
      .error (.KeyError
        ("The key does not have a port ID: Key " ++ keyStr ⟨["#IBC", "ports"]⟩)) := by
  constructor
  · have h := (get_port_id_spec ⟨["#IBC", "channelEnds", "ports", "transfer"]⟩).1
      "transfer" rfl
    rw [h]
    decide
  · exact (get_port_id_spec ⟨["#IBC", "ports"]⟩).2.1 (by decide)

/-- Claim C9: `get_capability` parses exactly the segment at index 2 of
the key as a non-negative integer yielding the capability with that
index, and fails with a capability error when the segment is absent or
not a number. -/
theorem get_capability_spec (key : Key) :
    (∀ seg n, key.segments[2]? = some seg → parseU64 seg = .ok n →
      get_capability key = .ok ⟨n⟩) ∧
    (∀ seg e, key.segments[2]? = some seg → parseU64 seg = .error e →
      get_capability key =
        .error (.CapabilityError
          ("The key has a non-number index: Key " ++ keyStr key ++ ", " ++ e))) ∧
    (key.segments.length < 3 →
      get_capability key =
        .error (.CapabilityError
          ("The key does not have a capability index: Key " ++ keyStr key))) := by
  refine ⟨?_, ?_, ?_⟩
  · intro seg n h hp
    simp [get_capability, h, hp]
  · intro seg e h hp
    simp [get_capability, h, hp]
  · intro hlen
    have h : key.segments[2]? = none := List.getElem?_eq_none (by omega)
    simp [get_capability, h]

/-- Claim C9 witness: the third segment `7` yields capability 7, and a
non-numeric third segment is rejected with the capability error. -/
theorem get_capability_spec_witness :
    get_capability (ibcKey "capabilities/7") = .ok ⟨7⟩ ∧
    get_capability ⟨["#IBC", "capabilities", "seven"]⟩ =
      .error (.CapabilityError
        ("The key has a non-number index: Key " ++
          keyStr ⟨["#IBC", "capabilities", "seven"]⟩ ++ ", " ++
          "invalid digit found in string")) := by
  constructor
  · exact (get_capability_spec (ibcKey "capabilities/7")).1 "7" 7
      (by decide) (by decide)
  · exact (get_capability_spec ⟨["#IBC", "capabilities", "seven"]⟩).2.1 "seven"
      "invalid digit found in string" (by decide) (by decide)

/-- Claim C10: `validate_port` never returns `Ok false` (every rejection
on the port path carries an error), whereas `validate_capability` can
return `Ok false` without an error, as it does on a non-advancing
counter. -/
theorem validate_port_never_ok_false :
    (∀ (ctx : Ctx) (key : Key), validate_port ctx key ≠ .ok false) ∧
    validate_capability stalledCounterCtx2 ibcCapabilityIndexKey = .ok false := by
  constructor
  · intro ctx key
    cases h1 : get_port_id key with
    | error e => simp [validate_port, h1]
    | ok pid =>
        cases h2 : get_port_state_change ctx pid with
        | error e => simp [validate_port, h1, h2]
        | ok sc =>
            cases sc with
            | Created =>
                cases h3 : authenticated_capability ctx pid with
                | ok c => simp [validate_port, h1, h2, h3]
                | error e => simp [validate_port, h1, h2, h3]
            | Modified => simp [validate_port, h1, h2]
            | Deleted => simp [validate_port, h1, h2]
            | NotExists => simp [validate_port, h1, h2]
  · decide

/-- Claim C10 witness: instance of the universal part at a concrete
context and key. -/
theorem validate_port_never_ok_false_witness :
    validate_port stalledCounterCtx2 ibcCapabilityIndexKey ≠ .ok false :=
  validate_port_never_ok_false.1 stalledCounterCtx2 ibcCapabilityIndexKey

end AnomaPort
